import Mathlib

/-!
Verification of the 3x-ui helper bot's change-detection engine and
conversation handlers, shallowly embedded from `src/database.py` and
`src/bot.py`.

Conventions of the embedding:
* Python dicts keyed by `tgId` are modelled as association lists in
  insertion order (`Snapshot`); `snapGet`/`snapInsert` mirror
  `dict.get(k, [])` and `dict.setdefault(k, []).append(v)`.
* Machine integers are `Nat`/`Int`; Telegram ids are `Nat`.
* Fallible store reads are `Except String _`; a Python method that
  catches internally and returns a default is modelled as a total
  function of the read result.
* Conversation handler coroutines become pure functions from their
  inputs (user id, inbound text, session data) to a result record
  (next conversation state, replies, sends, updated session data).
-/

/-- Inbound/network metadata extracted from the single `inbounds` row
(`DatabaseManager.get_inbound_data` in `src/database.py`, after the
nested-JSON field extraction performed by `generate_vless_config`). -/
structure InboundMeta where
  listen : String
  port : String
  remark : String
  network : String
  security : String
  publicKey : String
  fingerprint : String
  serverName : String
  shortId : String
deriving DecidableEq

/-- One client record from the inbound `settings.clients` JSON array.
`tgId = none` models a missing `tgId` key (`client.get('tgId')` is
`None`). String fields carry the defaults the code applies on access. -/
structure Client where
  id : String
  email : String
  tgId : Option Nat
  total : Nat
  expiryTime : Nat
  comment : String
deriving DecidableEq

/-- `DatabaseManager.generate_vless_config` (src/database.py lines
77-113): the deterministic URI-style rendered config.  The inbound
metadata the Python code re-reads from the store is passed in as
`meta`; the flow label is the constant `xtls-rprx-vision`. -/
def generate_vless_config (meta : InboundMeta) (c : Client) : String :=
  "vless://" ++ c.id ++ "@" ++ meta.listen ++ ":" ++ meta.port ++ "?type=" ++
    meta.network ++ "&security=" ++ meta.security ++ "&pbk=" ++ meta.publicKey ++
    "&fp=" ++ meta.fingerprint ++ "&sni=" ++ meta.serverName ++ "&sid=" ++
    meta.shortId ++ "&spx=%2F&flow=xtls-rprx-vision#" ++ meta.remark ++ "-" ++ c.email

/-- One `config_data` dict built by `get_all_user_configs`
(src/database.py lines 193-198). -/
structure CfgEntry where
  email : String
  config : String
  client_id : String
  client_data : Client
deriving DecidableEq

/-- A per-owner config snapshot: the Python dict
`tg_id -> list of config_data`, as an association list in insertion
order. -/
abbrev Snapshot := List (Nat × List CfgEntry)

/-- `old_configs.get(tg_id, [])`: first value stored under `k`, or `[]`. -/
def snapGet (m : Snapshot) (k : Nat) : List CfgEntry :=
  match m with
  | [] => []
  | (k', vs) :: rest => if k' = k then vs else snapGet rest k

/-- Append `v` to the list stored under `k`, creating the key at the end
of the dict (Python insertion order) if absent. -/
def snapInsert (m : Snapshot) (k : Nat) (v : CfgEntry) : Snapshot :=
  match m with
  | [] => [(k, [v])]
  | (k', vs) :: rest =>
    if k' = k then (k', vs ++ [v]) :: rest else (k', vs) :: snapInsert rest k v

/-- The keys of a snapshot, in order. -/
def snapKeys (m : Snapshot) : List Nat := m.map Prod.fst

/-- Truthiness of `client.get('tgId')` (src/database.py line 188-189):
a missing key or the value `0` is falsy. -/
def truthyTg (c : Client) : Option Nat :=
  match c.tgId with
  | none => none
  | some t => if t = 0 then none else some t

/-- The `config_data` dict built for one client
(src/database.py lines 193-198). -/
def mkCfgEntry (meta : InboundMeta) (c : Client) : CfgEntry :=
  { email := c.email
    config := generate_vless_config meta c
    client_id := c.id
    client_data := c }

/-- `DatabaseManager.get_all_user_configs` (src/database.py lines
178-205) on an already-read store: group the rendered configs of all
clients with a truthy `tgId` by that id, in iteration order. -/
def get_all_user_configs (meta : InboundMeta) (clients : List Client) : Snapshot :=
  clients.foldl
    (fun m c =>
      match truthyTg c with
      | none => m
      | some t => snapInsert m t (mkCfgEntry meta c)) []

/-- The inner lookup of `check_config_changes` (src/database.py lines
220-224): first old entry with the given email, if any. -/
def lookupOld (entries : List CfgEntry) (email : String) : Option CfgEntry :=
  match entries with
  | [] => none
  | e :: rest => if e.email = email then some e else lookupOld rest email

/-- The emission condition of `check_config_changes` (src/database.py
line 227): no matching old entry, or a different rendered string. -/
def entryChanged (oldEntries : List CfgEntry) (e : CfgEntry) : Bool :=
  match lookupOld oldEntries e.email with
  | none => true
  | some o => o.config != e.config

/-- The comparison loop of `DatabaseManager.check_config_changes`
(src/database.py lines 210-232), as a pure function of the old and
freshly-read snapshots: for every entry of `current`, keep it (grouped
under its owner) exactly when `entryChanged` holds against the old
entries of that owner. -/
def diffConfigs (old current : Snapshot) : Snapshot :=
  current.foldl
    (fun acc p =>
      p.2.foldl
        (fun acc2 e =>
          if entryChanged (snapGet old p.1) e then snapInsert acc2 p.1 e else acc2)
        acc)
    []

/-- Well-formedness of a snapshot as produced by the builder under the
data model's invariants: dict keys are unique, and each owner's emails
are unique ("email: display key, unique per owner"). -/
def snapWF (s : Snapshot) : Prop :=
  (snapKeys s).Nodup ∧ ∀ p ∈ s, (p.2.map CfgEntry.email).Nodup

instance (s : Snapshot) : Decidable (snapWF s) := by
  unfold snapWF; infer_instance

/-! ## The poll loop (`monitor_database_changes`, src/bot.py lines 884-963) -/

/-- A point-in-time value of the external store as seen by one
`get_all_user_configs` call: the inbound metadata row and its embedded
client list. -/
structure Store where
  meta : InboundMeta
  clients : List Client
deriving DecidableEq

/-- `DatabaseManager.get_all_user_configs` including its internal
`try/except` (src/database.py lines 180-205): a failed store read is
caught and yields the empty dict. -/
def get_all_user_configsE (r : Except String Store) : Snapshot :=
  match r with
  | .error _ => []
  | .ok s => get_all_user_configs s.meta s.clients

/-- `DatabaseManager.check_config_changes` (src/database.py lines
207-232): read the current snapshot (read result `r`) and diff it
against `old_configs`. -/
def check_config_changes (old_configs : Snapshot) (r : Except String Store) : Snapshot :=
  diffConfigs old_configs (get_all_user_configsE r)

/-- Modelled from the spec: `DatabaseManager.check_new_clients` is
called from `monitor_database_changes` (src/bot.py line 925) but its
definition is not under src/.  Spec section 4.1: "Account diff: for
every `id` present in `new.AccountSetSnapshot` but absent from `old`,
emit `NewAccount`." -/
def check_new_clients (old current : List Client) : List Client :=
  current.filter fun c => !(old.any fun o => o.id == c.id)

/-- The config-update notification text (src/bot.py lines 906-907). -/
def configChangeMsg (e : CfgEntry) : String :=
  "🚨 Конфиг для " ++ e.email ++ " был обновлён\n\n```\n" ++ e.config ++ "\n```"

/-- The per-owner notification sends attempted for a changed-config
dict (src/bot.py lines 901-922); each send is individually guarded by
`try/except`, so the attempt list never depends on delivery outcomes. -/
def configSendsOf (changed : Snapshot) : List (Nat × String) :=
  changed.foldl (fun acc p => acc ++ p.2.map fun e => (p.1, configChangeMsg e)) []

/-- `format_new_client_message` (src/bot.py lines 846-882).  The
floating-point GB rendering (`bytes_to_gb` / `round`) and the
local-timezone date rendering (`datetime.fromtimestamp`) are
environment-dependent and are passed in as the functions `gbR` and
`dateR`; the inbound remark comes from `get_inbound_remark` (not under
src/), modelled per spec section 6 as the store's remark field. -/
def format_new_client_message (remark : String) (gbR dateR : Nat → String)
    (c : Client) : String :=
  let traffic_info := if c.total = 0 then "♾️ Unlimited(Reset)" else gbR c.total
  let expiry_info := if c.expiryTime = 0 then "♾️ Безлимит" else dateR c.expiryTime
  let comment := if c.comment = "" then "Нет комментария" else c.comment
  "🔄 Инбаунды: " ++ remark ++ "\n\n🔑 ID: " ++ c.id ++ "\n📧 Email: " ++ c.email ++
    "\n📊 Трафик: " ++ traffic_info ++ "\n📅 Дата исчерпания: " ++ expiry_info ++
    "\n💬 Комментарий: " ++ comment

/-- The new-client notification sends attempted (src/bot.py lines
928-947): every new client's message goes to every configured
administrator; each send is individually guarded by `try/except`. -/
def newClientSends (admins : List Nat) (remark : String) (gbR dateR : Nat → String)
    (newClients : List Client) : List (Nat × String) :=
  newClients.foldl
    (fun acc c => acc ++ admins.map fun a => (a, format_new_client_message remark gbR dateR c)) []

/-- Environment-dependent rendering inputs of one monitoring iteration:
the inbound remark read by `get_inbound_remark` and the numeric/date
renderers of `format_new_client_message`. -/
structure RenderEnv where
  remark : String
  gbR : Nat → String
  dateR : Nat → String

/-- The store-read results consumed by one iteration of
`monitor_database_changes`, in program order: the read inside
`check_config_changes` (line 898), the read inside `check_new_clients`
(line 925), the re-read replacing `last_configs` (line 951), and the
`get_all_clients` re-read replacing `last_clients` (line 955).
`clientsRead`/`clientsReread` model the not-under-src/ client reads;
per spec section 7 a failed store read there raises
`TransientStoreError`, which propagates to the loop's `except` clause. -/
structure IterReads where
  cfgRead : Except String Store
  clientsRead : Except String (List Client)
  cfgReread : Except String Store
  clientsReread : Except String (List Client)

/-- The loop's retained baselines (`last_configs`, `last_clients`;
src/bot.py lines 49-50, 892-893). -/
structure MonState where
  last_configs : Snapshot
  last_clients : List Client
deriving DecidableEq

/-- Observable outcome of one loop iteration: successor baselines, the
sends attempted, the sleep chosen (30 on a clean pass, 60 after a
caught error), and the error logged, if any. -/
structure IterResult where
  state : MonState
  sends : List (Nat × String)
  sleep : Nat
  errorLogged : Option String
deriving DecidableEq

/-- One iteration of the `while monitoring_active` body of
`monitor_database_changes` (src/bot.py lines 895-963), with the store
read results supplied in `r`.  A raised store error jumps to the
`except` clause: the error is logged, no further statement of the body
runs, and the sleep is 60 instead of 30. -/
def monitorIteration (admins : List Nat) (env : RenderEnv) (r : IterReads)
    (st : MonState) : IterResult :=
  let changed := check_config_changes st.last_configs r.cfgRead
  let cSends := configSendsOf changed
  match r.clientsRead with
  | .error e => { state := st, sends := cSends, sleep := 60, errorLogged := some e }
  | .ok curClients =>
    let newClients := check_new_clients st.last_clients curClients
    let aSends := newClientSends admins env.remark env.gbR env.dateR newClients
    let cfg1 := match changed with
      | [] => st.last_configs
      | _ => get_all_user_configsE r.cfgReread
    match newClients with
    | [] =>
      { state := { last_configs := cfg1, last_clients := st.last_clients }
        sends := cSends ++ aSends, sleep := 30, errorLogged := none }
    | _ =>
      match r.clientsReread with
      | .error e =>
        { state := { last_configs := cfg1, last_clients := st.last_clients }
          sends := cSends ++ aSends, sleep := 60, errorLogged := some e }
      | .ok cs2 =>
        { state := { last_configs := cfg1, last_clients := cs2 }
          sends := cSends ++ aSends, sleep := 30, errorLogged := none }

/-- The monitoring loop run for `fuel` ticks with the per-tick store
reads given by `seq`; every tick produces an iteration result and the
loop continues regardless of errors (the body's `except` clause
swallows them). -/
def monitorTrace (admins : List Nat) (env : RenderEnv) :
    (Nat → IterReads) → MonState → Nat → List IterResult
  | _, _, 0 => []
  | seq, st, n + 1 =>
    let r := monitorIteration admins env (seq 0) st
    r :: monitorTrace admins env (fun i => seq (i + 1)) r.state n

/-! ## Conversation handlers (src/bot.py lines 52-842) -/

/-- Conversation state codes (src/bot.py lines 52-63);
`END_STATE` is `ConversationHandler.END = -1`, the spec's `Idle`. -/
def MAIL_WAITING_MESSAGE : Int := 10

/-- Confirmation state of the broadcast flow (src/bot.py line 55). -/
def MAIL_CONFIRM : Int := 11

/-- First report-flow state (src/bot.py line 58). -/
def REPORT_PROVIDER : Int := 20

/-- Second report-flow state (src/bot.py line 59). -/
def REPORT_DEVICE : Int := 21

/-- Third report-flow state (src/bot.py line 60). -/
def REPORT_COMMENTS : Int := 22

/-- `ConversationHandler.END`: no active conversation (`Idle`). -/
def END_STATE : Int := -1

/-- Python `str.strip()`: drop whitespace from both ends (executable
model over the underlying character list). -/
def pyStrip (s : String) : String :=
  ⟨((s.data.dropWhile Char.isWhitespace).reverse.dropWhile Char.isWhitespace).reverse⟩

/-- `is_admin` (src/bot.py lines 65-67). -/
def is_admin (admins : List Nat) (user_id : Nat) : Bool :=
  admins.contains user_id

/-- The `report_data` session dict (src/bot.py lines 638-643); fields
start as `None` and are filled step by step. -/
structure ReportData where
  provider : Option String := none
  device : Option String := none
  comments : Option String := none
  message_ids : List Nat := []
deriving DecidableEq

/-- The per-user `context.user_data` keys the two flows use; `none`
models an absent key (after `pop`). -/
structure UserData where
  mail_text : Option String := none
  mail_telegram_ids : Option (List Nat) := none
  mail_message_id : Option Nat := none
  mail_chat_id : Option Nat := none
  mail_confirm_message_id : Option Nat := none
  report_data : Option ReportData := none
deriving DecidableEq

/-- Result of a text-message handler: next conversation state, replies
sent to the invoking user, and the updated session data. -/
structure HandlerResult where
  state : Int
  replies : List String
  ud : UserData
deriving DecidableEq

/-- Python truthiness of an optional stored string (`not mail_text`):
missing or empty is falsy. -/
def pyFalsyStr : Option String → Bool
  | none => true
  | some s => s == ""

/-- Python truthiness of an optional stored list (`not telegram_ids`):
missing or empty is falsy. -/
def pyFalsyList : Option (List Nat) → Bool
  | none => true
  | some l => l.isEmpty

/-- Rejection reply of `/mail` for non-administrators (src/bot.py line 406). -/
def mailRejectText : String :=
  "❌ Извините, у вас нет прав на выполнение этой команды."

/-- The broadcast prompt issued on entry (src/bot.py lines 415-416). -/
def mailPromptText : String :=
  "📢 Режим рассылки активирован\n\nВведите ваше сообщение для рассылки всем пользователям."

/-- `mail_start` (src/bot.py lines 398-428): entry point of the
broadcast flow.  A non-administrator is rejected and the conversation
ends (`Idle`) with the session data untouched; an administrator gets
the stale mail keys cleared, the prompt issued, and its message id
recorded. -/
def mail_start (admins : List Nat) (uid : Nat) (promptMsgId chatId : Nat)
    (ud : UserData) : HandlerResult :=
  if is_admin admins uid then
    { state := MAIL_WAITING_MESSAGE
      replies := [mailPromptText]
      ud := { ud with
                mail_text := none
                mail_telegram_ids := none
                mail_message_id := some promptMsgId
                mail_chat_id := some chatId } }
  else
    { state := END_STATE, replies := [mailRejectText], ud := ud }

/-- Re-prompt on empty broadcast text (src/bot.py line 443). -/
def mailEmptyText : String :=
  "❌ Сообщение не может быть пустым. Попробуйте еще раз."

/-- Rejection inside `mail_receive_message` (src/bot.py line 439). -/
def mailNoRightsText : String := "❌ У вас нет прав администратора."

/-- No-recipients abort (src/bot.py line 463). -/
def mailNoUsersText : String := "❌ Не найдено пользователей для рассылки."

/-- Broadcast signature wrapper (src/bot.py lines 478, 522). -/
def signedBroadcast (text : String) : String :=
  "⚫️ Тёмная Сторона сообщает:\n\n" ++ text

/-- The recipient-statistics reply (src/bot.py lines 471-473). -/
def mailStatsPreview (n : Nat) : String :=
  "📊 Статистика рассылки:\n\n👥 Получателей: " ++ toString n ++
    " человек\n\n👀 Превью сообщения ниже:"

/-- The confirmation question (src/bot.py line 483). -/
def mailConfirmQuestion : String := "❓ Отправить рассылку?"

/-- `mail_receive_message` (src/bot.py lines 430-495).  `allIds` is the
result of `get_all_unique_telegram_ids` (not under src/; modelled from
the spec as the current "full set of known subscriber identities"),
`confirmMsgId` the id of the confirmation prompt message. -/
def mail_receive_message (admins : List Nat) (uid : Nat) (text : String)
    (allIds : List Nat) (confirmMsgId : Nat) (ud : UserData) : HandlerResult :=
  if !(is_admin admins uid) then
    { state := END_STATE, replies := [mailNoRightsText], ud := ud }
  else if pyStrip text = "" then
    { state := MAIL_WAITING_MESSAGE, replies := [mailEmptyText], ud := ud }
  else if allIds = [] then
    { state := END_STATE, replies := [mailNoUsersText], ud := ud }
  else
    { state := MAIL_CONFIRM
      replies := [mailStatsPreview allIds.length, signedBroadcast text, mailConfirmQuestion]
      ud := { ud with
                mail_text := some text
                mail_telegram_ids := some allIds
                mail_confirm_message_id := some confirmMsgId } }

/-- Fan-out counters of the delivery loop (src/bot.py lines 518-534). -/
structure FanoutAcc where
  attempted : List Nat := []
  success_count : Nat := 0
  failed_count : Nat := 0
deriving DecidableEq

/-- The broadcast delivery loop (src/bot.py lines 524-534): one send is
attempted per recipient in list order; `ok` tells whether the transport
call succeeds for a recipient.  A failure is counted and swallowed by
the per-recipient `try/except`, so iteration always continues. -/
def broadcastFanout (ids : List Nat) (ok : Nat → Bool) : FanoutAcc :=
  ids.foldl
    (fun acc tg =>
      if ok tg then
        { attempted := acc.attempted ++ [tg]
          success_count := acc.success_count + 1
          failed_count := acc.failed_count }
      else
        { attempted := acc.attempted ++ [tg]
          success_count := acc.success_count
          failed_count := acc.failed_count + 1 })
    {}

/-- The completion statistics reported to the initiator
(src/bot.py lines 537-541). -/
def mailStatsFinal (succ fail tot : Nat) : String :=
  "✅ Рассылка завершена!\n\n📊 Статистика:\n✅ Успешно отправлено: " ++ toString succ ++
    "\n❌ Ошибок: " ++ toString fail ++ "\n📈 Всего пользователей: " ++ toString tot

/-- Result of the confirmation-button handler. -/
structure MailConfirmResult where
  state : Int
  fanout : FanoutAcc
  replies : List String
  ud : UserData
deriving DecidableEq

/-- Clear all broadcast session keys (src/bot.py lines 546-550, 563-568). -/
def clearMailData (ud : UserData) : UserData :=
  { ud with
      mail_text := none
      mail_telegram_ids := none
      mail_message_id := none
      mail_chat_id := none
      mail_confirm_message_id := none }

/-- `mail_handle_confirm_button` (src/bot.py lines 497-577).  On
`mail_confirm` with stored text and recipients, the delivery loop runs
over every stored recipient and the final statistics are reported; the
session is cleared and the conversation ends.  Missing/falsy stored
data aborts with no sends.  `mail_cancel_confirm` clears and ends; an
unrecognized callback stays in `MAIL_CONFIRM`. -/
def mail_handle_confirm_button (callback_data : String) (ok : Nat → Bool)
    (ud : UserData) : MailConfirmResult :=
  if callback_data = "mail_confirm" then
    if pyFalsyStr ud.mail_text || pyFalsyList ud.mail_telegram_ids then
      { state := END_STATE, fanout := {}, replies := [], ud := ud }
    else
      let ids := ud.mail_telegram_ids.getD []
      let f := broadcastFanout ids ok
      { state := END_STATE
        fanout := f
        replies := [mailStatsFinal f.success_count f.failed_count ids.length]
        ud := clearMailData ud }
  else if callback_data = "mail_cancel_confirm" then
    { state := END_STATE, fanout := {}, replies := [], ud := clearMailData ud }
  else
    { state := MAIL_CONFIRM, fanout := {}, replies := [], ud := ud }

/-- Re-prompt text of the report steps (src/bot.py lines 668, 711, 754). -/
def pleaseEnterText : String := "❌ Пожалуйста, введите текст."

/-- Lost-session reply of the report steps (src/bot.py lines 674, 717, 760). -/
def reportLostText : String :=
  "❌ Ошибка: данные отчета потеряны. Начните заново с /report"

/-- Second report question (src/bot.py line 695). -/
def deviceQuestion : String := "2️⃣ Устройство - телефон или ПК:"

/-- Third report question (src/bot.py line 738). -/
def commentsQuestion : String :=
  "3️⃣ Комментарии - что работает, когда сломалось, что не открывается:"

/-- `report_provider` (src/bot.py lines 660-701): blank input re-prompts
in the same state with nothing stored; with an active session the
trimmed text is stored as `provider`, the next prompt's id is recorded,
and the flow advances to `REPORT_DEVICE`. -/
def report_provider (text : String) (newMsgId : Nat) (ud : UserData) : HandlerResult :=
  if pyStrip text = "" then
    { state := REPORT_PROVIDER, replies := [pleaseEnterText], ud := ud }
  else
    match ud.report_data with
    | none => { state := END_STATE, replies := [reportLostText], ud := ud }
    | some rd =>
      { state := REPORT_DEVICE
        replies := [deviceQuestion]
        ud := { ud with report_data := some { rd with
                  provider := some (pyStrip text)
                  message_ids := rd.message_ids ++ [newMsgId] } } }

/-- `report_device` (src/bot.py lines 703-744): as `report_provider`,
storing `device` and advancing to `REPORT_COMMENTS`. -/
def report_device (text : String) (newMsgId : Nat) (ud : UserData) : HandlerResult :=
  if pyStrip text = "" then
    { state := REPORT_DEVICE, replies := [pleaseEnterText], ud := ud }
  else
    match ud.report_data with
    | none => { state := END_STATE, replies := [reportLostText], ud := ud }
    | some rd =>
      { state := REPORT_COMMENTS
        replies := [commentsQuestion]
        ud := { ud with report_data := some { rd with
                  device := some (pyStrip text)
                  message_ids := rd.message_ids ++ [newMsgId] } } }

/-- Acknowledgement sent to the submitter (src/bot.py lines 777-778). -/
def reportAckText : String :=
  "⚫️ Ваше сообщение принято Тёмной Стороной. Спасибо! ⚫️\n\n⚡️⭐ Да пребудет с тобой Сила ⭐⚡️"

/-- Python str-formatting of an optional field (`None` renders as the
string `None`). -/
def pyOptStr : Option String → String
  | none => "None"
  | some s => s

/-- The display name of the submitter (src/bot.py line 784):
`first_name`/`last_name` joined and trimmed, else `username`, else
`ID: <user_id>`. -/
def mkUserName (firstName lastName username : Option String) (uid : Nat) : String :=
  let fn := pyStrip ((firstName.getD "") ++ " " ++ (lastName.getD ""))
  if fn ≠ "" then fn
  else
    match username with
    | some u => if u ≠ "" then u else "ID: " ++ toString uid
    | none => "ID: " ++ toString uid

/-- The inline mention of the submitter (src/bot.py line 785). -/
def mkUserLink (userName : String) (uid : Nat) : String :=
  "[" ++ userName ++ "](tg://user?id=" ++ toString uid ++ ")"

/-- The structured report sent to every administrator
(src/bot.py lines 789-794). -/
def reportAdminMessage (userLink ts provider device comments : String) : String :=
  "📋 **Новый отчет о проблеме**\n\n👤 Отправитель: " ++ userLink ++
    "\n🕐 Время: " ++ ts ++ "\n\n**1️⃣ Провайдер:**\n" ++ provider ++
    "\n\n**2️⃣ Устройство:**\n" ++ device ++ "\n\n**3️⃣ Комментарии:**\n" ++ comments

/-- Result of the terminal report step: conversation state, replies to
the submitter, the administrator sends attempted, and the session. -/
structure ReportResult where
  state : Int
  replies : List String
  adminSends : List (Nat × String)
  ud : UserData
deriving DecidableEq

/-- `report_comments` (src/bot.py lines 746-816), the terminal step of
the report flow.  Blank input re-prompts in the same state; a missing
session ends the conversation with no sends and nothing stored; with an
active session the trimmed comments are stored, the structured report
is sent to every configured administrator (each send guarded by its own
`try/except`), the submitter is acknowledged, and the session is
cleared (`report_data` popped).  `ts` is the wall-clock timestamp
string of `datetime.now()`. -/
def report_comments (admins : List Nat) (uid : Nat)
    (firstName lastName username : Option String) (ts : String)
    (text : String) (ud : UserData) : ReportResult :=
  if pyStrip text = "" then
    { state := REPORT_COMMENTS, replies := [pleaseEnterText], adminSends := [], ud := ud }
  else
    match ud.report_data with
    | none =>
      { state := END_STATE, replies := [reportLostText], adminSends := [], ud := ud }
    | some rd =>
      let rd1 : ReportData := { rd with comments := some (pyStrip text) }
      let link := mkUserLink (mkUserName firstName lastName username uid) uid
      let msg := reportAdminMessage link ts (pyOptStr rd1.provider)
        (pyOptStr rd1.device) (pyOptStr rd1.comments)
      { state := END_STATE
        replies := [reportAckText]
        adminSends := admins.map fun a => (a, msg)
        ud := { ud with report_data := none } }

/-! ## Proof-support decompositions of the folds -/

/-- The inner fold of `diffConfigs` at a fixed owner. -/
def diffInner (oldE : List CfgEntry) (tg : Nat) (acc : Snapshot)
    (es : List CfgEntry) : Snapshot :=
  es.foldl (fun acc2 e => if entryChanged oldE e then snapInsert acc2 tg e else acc2) acc

/-- The outer fold of `diffConfigs`. -/
def diffOuter (old acc : Snapshot) (l : Snapshot) : Snapshot :=
  l.foldl (fun a p => diffInner (snapGet old p.1) p.1 a p.2) acc

/-- One step of the `get_all_user_configs` grouping loop. -/
def buildStep (meta : InboundMeta) (m : Snapshot) (c : Client) : Snapshot :=
  match truthyTg c with
  | none => m
  | some t => snapInsert m t (mkCfgEntry meta c)

/-- The entry a client contributes to key `k`, if any. -/
def buildSel (meta : InboundMeta) (k : Nat) (c : Client) : Option CfgEntry :=
  if truthyTg c = some k then some (mkCfgEntry meta c) else none

/-- One step of the broadcast delivery loop. -/
def fanoutStep (ok : Nat → Bool) (acc : FanoutAcc) (tg : Nat) : FanoutAcc :=
  if ok tg then
    { attempted := acc.attempted ++ [tg]
      success_count := acc.success_count + 1
      failed_count := acc.failed_count }
  else
    { attempted := acc.attempted ++ [tg]
      success_count := acc.success_count
      failed_count := acc.failed_count + 1 }

/-! ## Concrete values used to evaluate the definitions -/

/-- A concrete session holding a broadcast text and recipient list. -/
def wUd4 : UserData :=
  { mail_text := some "Scheduled maintenance at 02:00"
    mail_telegram_ids := some [1, 2, 3] }

/-- A concrete report session after the provider and device steps. -/
def wRd5 : ReportData :=
  { provider := some "ProviderX", device := some "phone", message_ids := [100, 101] }

/-- A concrete session holding `wRd5`. -/
def wUd5 : UserData := { report_data := some wRd5 }

/-- A concrete inbound metadata row. -/
def wMeta : InboundMeta :=
  { listen := "0.0.0.0", port := "443", remark := "rem", network := "tcp"
    security := "reality", publicKey := "pk", fingerprint := "fp"
    serverName := "sni.example", shortId := "sid" }

/-- A concrete owned client. -/
def wClientA : Client :=
  { id := "uuid-a", email := "a", tgId := some 1, total := 0, expiryTime := 0, comment := "" }

/-- A concrete owned client of a second owner. -/
def wClientB : Client :=
  { id := "uuid-b", email := "b", tgId := some 2, total := 0, expiryTime := 0, comment := "" }

/-- A concrete client with no `tgId`. -/
def wClientU : Client :=
  { id := "uuid-u", email := "u", tgId := none, total := 0, expiryTime := 0, comment := "x" }

/-- A concrete config entry of owner 1. -/
def wE1 : CfgEntry :=
  { email := "a", config := "cfg1", client_id := "uuid-a", client_data := wClientA }

/-- The same key as `wE1` with a different rendered string. -/
def wE1x : CfgEntry :=
  { email := "a", config := "cfg2", client_id := "uuid-a", client_data := wClientA }

/-- A concrete config entry of owner 2. -/
def wE2 : CfgEntry :=
  { email := "b", config := "cfg3", client_id := "uuid-b", client_data := wClientB }

/-- A concrete old snapshot with two owners. -/
def wOld : Snapshot := [(1, [wE1]), (2, [wE2])]

/-- A concrete current snapshot: owner 1's config changed, owner 2 removed. -/
def wCur : Snapshot := [(1, [wE1x])]

/-- A concrete render environment for the monitoring loop. -/
def cEnv : RenderEnv := { remark := "rem", gbR := fun _ => "", dateR := fun _ => "" }

/-- Concrete initial baselines: both empty. -/
def cSt0 : MonState := { last_configs := [], last_clients := [] }

/-- Concrete reads of an iteration whose store changes between the
diff's read and the baseline re-read: the diff sees client A, the
re-read sees an empty client list. -/
def cR0 : IterReads :=
  { cfgRead := Except.ok { meta := wMeta, clients := [wClientA] }
    clientsRead := Except.ok []
    cfgReread := Except.ok { meta := wMeta, clients := [] }
    clientsReread := Except.ok [] }

/-- Concrete reads of an iteration whose store is stable: every read
sees client A. -/
def cR1 : IterReads :=
  { cfgRead := Except.ok { meta := wMeta, clients := [wClientA] }
    clientsRead := Except.ok [wClientA]
    cfgReread := Except.ok { meta := wMeta, clients := [wClientA] }
    clientsReread := Except.ok [wClientA] }

/-- Concrete reads of an iteration whose client-list read raises. -/
def cR2 : IterReads :=
  { cfgRead := Except.ok { meta := wMeta, clients := [wClientA] }
    clientsRead := Except.error "store busy"
    cfgReread := Except.ok { meta := wMeta, clients := [wClientA] }
    clientsReread := Except.ok [wClientA] }

/-- Concrete reads of an iteration that observes the addition of
client B to a store previously holding only client A. -/
def cR3 : IterReads :=
  { cfgRead := Except.ok { meta := wMeta, clients := [wClientA, wClientB] }
    clientsRead := Except.ok [wClientA, wClientB]
    cfgReread := Except.ok { meta := wMeta, clients := [wClientA, wClientB] }
    clientsReread := Except.ok [wClientA, wClientB] }

/-- Concrete baselines holding exactly client A. -/
def cSt3 : MonState :=
  { last_configs := get_all_user_configs wMeta [wClientA], last_clients := [wClientA] }

/-! ## Snapshot algebra -/

theorem snapGet_nil (k : Nat) : snapGet [] k = [] := rfl

theorem snapGet_cons (p : Nat × List CfgEntry) (rest : Snapshot) (k : Nat) :
    snapGet (p :: rest) k = if p.1 = k then p.2 else snapGet rest k := rfl

theorem snapGet_snapInsert (m : Snapshot) (t : Nat) (v : CfgEntry) (k : Nat) :
    snapGet (snapInsert m t v) k =
      if t = k then snapGet m k ++ [v] else snapGet m k := by
  induction m with
  | nil =>
    by_cases h : t = k <;> simp [snapInsert, snapGet, h]
  | cons p rest ih =>
    obtain ⟨k2, vs⟩ := p
    by_cases h1 : k2 = t
    · subst h1
      by_cases h2 : k2 = k <;> simp [snapInsert, snapGet, h2]
    · by_cases h2 : k2 = k
      · subst h2
        simp [snapInsert, snapGet, h1, Ne.symm h1]
      · simp [snapInsert, snapGet, h1, h2, ih]

theorem snapKeys_snapInsert (m : Snapshot) (t : Nat) (v : CfgEntry) :
    snapKeys (snapInsert m t v) =
      if t ∈ snapKeys m then snapKeys m else snapKeys m ++ [t] := by
  induction m with
  | nil => simp [snapInsert, snapKeys]
  | cons p rest ih =>
    obtain ⟨k2, vs⟩ := p
    by_cases h1 : k2 = t
    · subst h1
      simp [snapInsert, snapKeys]
    · have hins : snapInsert ((k2, vs) :: rest) t v = (k2, vs) :: snapInsert rest t v := by
        simp [snapInsert, h1]
      have hkeys : snapKeys ((k2, vs) :: rest) = k2 :: snapKeys rest := rfl
      have hkeys2 : snapKeys ((k2, vs) :: snapInsert rest t v) =
          k2 :: snapKeys (snapInsert rest t v) := rfl
      rw [hins, hkeys2, ih, hkeys]
      by_cases h2 : t ∈ snapKeys rest
      · rw [if_pos h2, if_pos (List.mem_cons_of_mem _ h2)]
      · have hnm : t ∉ k2 :: snapKeys rest := by
          intro hm
          rcases List.mem_cons.mp hm with he | hm2
          · exact h1 he.symm
          · exact h2 hm2
        rw [if_neg h2, if_neg hnm]
        simp

theorem snapGet_mem_of_nodup (l : Snapshot) (p : Nat × List CfgEntry)
    (hk : (snapKeys l).Nodup) (hp : p ∈ l) : snapGet l p.1 = p.2 := by
  induction l with
  | nil => cases hp
  | cons q rest ih =>
    simp only [snapKeys, List.map_cons, List.nodup_cons] at hk
    rcases List.mem_cons.mp hp with h | h
    · subst h; simp [snapGet_cons]
    · rw [snapGet_cons]
      have hne : q.1 ≠ p.1 := by
        intro he
        exact hk.1 (he ▸ List.mem_map_of_mem Prod.fst h)
      simp only [if_neg hne]
      exact ih (by simpa [snapKeys] using hk.2) h

/-! ## Characterization of the config diff -/

theorem diffConfigs_eq (old cur : Snapshot) :
    diffConfigs old cur = diffOuter old [] cur := rfl

theorem snapGet_diffInner (oldE : List CfgEntry) (tg : Nat) (es : List CfgEntry)
    (acc : Snapshot) (k : Nat) :
    snapGet (diffInner oldE tg acc es) k =
      snapGet acc k ++ if tg = k then es.filter (entryChanged oldE) else [] := by
  induction es generalizing acc with
  | nil => by_cases h : tg = k <;> simp [diffInner, h]
  | cons e rest ih =>
    by_cases hc : entryChanged oldE e
    · have hstep : diffInner oldE tg acc (e :: rest) =
          diffInner oldE tg (snapInsert acc tg e) rest := by
        simp [diffInner, hc]
      rw [hstep, ih, snapGet_snapInsert]
      by_cases h : tg = k <;> simp [h, hc, List.filter_cons]
    · have hstep : diffInner oldE tg acc (e :: rest) = diffInner oldE tg acc rest := by
        simp [diffInner, hc]
      rw [hstep, ih]
      by_cases h : tg = k <;> simp [h, hc, List.filter_cons]

theorem snapGet_diffOuter (old : Snapshot) (l : Snapshot) (acc : Snapshot) (k : Nat) :
    snapGet (diffOuter old acc l) k =
      snapGet acc k ++
        (l.flatMap fun p =>
          if p.1 = k then p.2.filter (entryChanged (snapGet old p.1)) else []) := by
  induction l generalizing acc with
  | nil => simp [diffOuter]
  | cons p rest ih =>
    have hstep : diffOuter old acc (p :: rest) =
        diffOuter old (diffInner (snapGet old p.1) p.1 acc p.2) rest := by
      simp [diffOuter]
    rw [hstep, ih, snapGet_diffInner]
    by_cases h : p.1 = k <;> simp [h, List.append_assoc]

theorem snapBind_of_not_mem (old : Snapshot) (l : Snapshot) (k : Nat)
    (h : k ∉ snapKeys l) :
    (l.flatMap fun p =>
      if p.1 = k then p.2.filter (entryChanged (snapGet old p.1)) else []) = [] := by
  induction l with
  | nil => simp
  | cons p rest ih =>
    simp only [snapKeys, List.map_cons, List.mem_cons, not_or] at h
    have h1 : p.1 ≠ k := fun he => h.1 he.symm
    simp only [List.flatMap_cons, if_neg h1, List.nil_append]
    exact ih (by simpa [snapKeys] using h.2)

theorem snapBind_of_nodup (old : Snapshot) (l : Snapshot) (k : Nat)
    (hk : (snapKeys l).Nodup) :
    (l.flatMap fun p =>
      if p.1 = k then p.2.filter (entryChanged (snapGet old p.1)) else []) =
      (snapGet l k).filter (entryChanged (snapGet old k)) := by
  induction l with
  | nil => simp [snapGet]
  | cons p rest ih =>
    simp only [snapKeys, List.map_cons, List.nodup_cons] at hk
    by_cases h : p.1 = k
    · subst h
      rw [List.flatMap_cons, if_pos rfl, snapBind_of_not_mem old rest p.1 hk.1,
        List.append_nil, snapGet_cons, if_pos rfl]
    · rw [List.flatMap_cons, if_neg h, List.nil_append, snapGet_cons, if_neg h]
      exact ih hk.2

/-- The central characterization of `check_config_changes`: for a
current snapshot with unique dict keys, the entries reported for owner
`k` are exactly the current entries of `k` whose emission condition
holds against the old entries of `k`. -/
theorem snapGet_diffConfigs (old cur : Snapshot) (hk : (snapKeys cur).Nodup) (k : Nat) :
    snapGet (diffConfigs old cur) k =
      (snapGet cur k).filter (entryChanged (snapGet old k)) := by
  rw [diffConfigs_eq, snapGet_diffOuter, snapGet_nil, List.nil_append]
  exact snapBind_of_nodup old cur k hk

/-! ## Self-diff emptiness -/

theorem lookupOld_self (es : List CfgEntry) (e : CfgEntry)
    (hn : (es.map CfgEntry.email).Nodup) (he : e ∈ es) :
    lookupOld es e.email = some e := by
  induction es with
  | nil => cases he
  | cons f rest ih =>
    simp only [List.map_cons, List.nodup_cons] at hn
    rcases List.mem_cons.mp he with h | h
    · subst h; simp [lookupOld]
    · have hne : f.email ≠ e.email := by
        intro hcontra
        exact hn.1 (hcontra ▸ List.mem_map_of_mem CfgEntry.email h)
      simp only [lookupOld, if_neg hne]
      exact ih hn.2 h

theorem entryChanged_self (es : List CfgEntry) (e : CfgEntry)
    (hn : (es.map CfgEntry.email).Nodup) (he : e ∈ es) :
    entryChanged es e = false := by
  rw [entryChanged, lookupOld_self es e hn he]
  simp

theorem diffInner_of_no_change (oldE : List CfgEntry) (tg : Nat) (es : List CfgEntry)
    (acc : Snapshot) (h : ∀ e ∈ es, entryChanged oldE e = false) :
    diffInner oldE tg acc es = acc := by
  induction es generalizing acc with
  | nil => rfl
  | cons e rest ih =>
    have he : entryChanged oldE e = false := h e (List.mem_cons_self e rest)
    have hstep : diffInner oldE tg acc (e :: rest) = diffInner oldE tg acc rest := by
      simp [diffInner, he]
    rw [hstep]
    exact ih acc fun e2 hm => h e2 (List.mem_cons_of_mem e hm)

theorem diffOuter_of_no_change (old : Snapshot) (l : Snapshot) (acc : Snapshot)
    (h : ∀ p ∈ l, ∀ e ∈ p.2, entryChanged (snapGet old p.1) e = false) :
    diffOuter old acc l = acc := by
  induction l generalizing acc with
  | nil => rfl
  | cons p rest ih =>
    have hstep : diffOuter old acc (p :: rest) =
        diffOuter old (diffInner (snapGet old p.1) p.1 acc p.2) rest := by
      simp [diffOuter]
    rw [hstep, diffInner_of_no_change _ _ _ _ (h p (List.mem_cons_self p rest))]
    exact ih acc fun q hq => h q (List.mem_cons_of_mem p hq)

/-- Diffing a well-formed snapshot against itself reports nothing. -/
theorem diffConfigs_self (X : Snapshot) (hwf : snapWF X) : diffConfigs X X = [] := by
  rw [diffConfigs_eq]
  apply diffOuter_of_no_change
  intro p hp e he
  rw [snapGet_mem_of_nodup X p hwf.1 hp]
  exact entryChanged_self p.2 e (hwf.2 p hp) he

/-! ## Builder characterization and well-formedness -/

theorem get_all_user_configs_eq (meta : InboundMeta) (clients : List Client) :
    get_all_user_configs meta clients = clients.foldl (buildStep meta) [] := rfl

theorem snapGet_buildFold (meta : InboundMeta) (clients : List Client)
    (m : Snapshot) (k : Nat) :
    snapGet (clients.foldl (buildStep meta) m) k =
      snapGet m k ++ clients.filterMap (buildSel meta k) := by
  induction clients generalizing m with
  | nil => simp
  | cons c rest ih =>
    rw [List.foldl_cons, ih]
    cases htr : truthyTg c with
    | none =>
      have hstep : buildStep meta m c = m := by simp [buildStep, htr]
      have hsel : buildSel meta k c = none := by simp [buildSel, htr]
      rw [hstep, List.filterMap_cons, hsel]
    | some t =>
      have hstep : buildStep meta m c = snapInsert m t (mkCfgEntry meta c) := by
        simp [buildStep, htr]
      rw [hstep, snapGet_snapInsert]
      by_cases hkt : t = k
      · subst hkt
        have hsel : buildSel meta t c = some (mkCfgEntry meta c) := by
          simp [buildSel, htr]
        rw [if_pos rfl, List.filterMap_cons, hsel, List.append_assoc]
        rfl
      · have hsel : buildSel meta k c = none := by
          simp [buildSel, htr, hkt]
        rw [if_neg hkt, List.filterMap_cons, hsel]

/-- The entries the builder stores under owner `k` are exactly the
rendered entries of the clients whose truthy `tgId` equals `k`. -/
theorem snapGet_build (meta : InboundMeta) (clients : List Client) (k : Nat) :
    snapGet (get_all_user_configs meta clients) k =
      clients.filterMap (buildSel meta k) := by
  rw [get_all_user_configs_eq, snapGet_buildFold, snapGet_nil, List.nil_append]

theorem build_keys_nodup_aux (meta : InboundMeta) (clients : List Client)
    (m : Snapshot) (hm : (snapKeys m).Nodup) :
    (snapKeys (clients.foldl (buildStep meta) m)).Nodup := by
  induction clients generalizing m with
  | nil => exact hm
  | cons c rest ih =>
    rw [List.foldl_cons]
    apply ih
    cases htr : truthyTg c with
    | none => simpa [buildStep, htr] using hm
    | some t =>
      have hstep : buildStep meta m c = snapInsert m t (mkCfgEntry meta c) := by
        simp [buildStep, htr]
      rw [hstep, snapKeys_snapInsert]
      by_cases hmem : t ∈ snapKeys m
      · rwa [if_pos hmem]
      · rw [if_neg hmem]
        simp [List.nodup_append, hm, hmem]

/-- The builder always produces unique dict keys. -/
theorem build_keys_nodup (meta : InboundMeta) (clients : List Client) :
    (snapKeys (get_all_user_configs meta clients)).Nodup := by
  rw [get_all_user_configs_eq]
  exact build_keys_nodup_aux meta clients [] List.nodup_nil

theorem filterMap_buildSel_emails_sublist (meta : InboundMeta) (k : Nat)
    (clients : List Client) :
    ((clients.filterMap (buildSel meta k)).map CfgEntry.email).Sublist
      (clients.map Client.email) := by
  induction clients with
  | nil => simp
  | cons c rest ih =>
    rw [List.filterMap_cons, List.map_cons]
    cases hsel : buildSel meta k c with
    | none => exact ih.cons c.email
    | some e =>
      have hemail : e.email = c.email := by
        rw [buildSel] at hsel
        by_cases hc : truthyTg c = some k
        · rw [if_pos hc] at hsel
          cases hsel
          rfl
        · rw [if_neg hc] at hsel
          cases hsel
      rw [List.map_cons, hemail]
      exact ih.cons₂ c.email

/-- With globally unique client emails, every owner's entry list in a
built snapshot has unique emails. -/
theorem build_emails_nodup (meta : InboundMeta) (clients : List Client)
    (h : (clients.map Client.email).Nodup) (k : Nat) :
    ((snapGet (get_all_user_configs meta clients) k).map CfgEntry.email).Nodup := by
  rw [snapGet_build]
  exact (filterMap_buildSel_emails_sublist meta k clients).nodup h

/-- Built snapshots are well-formed whenever client emails are unique. -/
theorem snapWF_build (meta : InboundMeta) (clients : List Client)
    (h : (clients.map Client.email).Nodup) :
    snapWF (get_all_user_configs meta clients) := by
  refine ⟨build_keys_nodup meta clients, fun p hp => ?_⟩
  have hget : snapGet (get_all_user_configs meta clients) p.1 = p.2 :=
    snapGet_mem_of_nodup _ p (build_keys_nodup meta clients) hp
  rw [← hget]
  exact build_emails_nodup meta clients h p.1

/-! ## New-client detection -/

theorem check_new_clients_self (l : List Client) : check_new_clients l l = [] := by
  rw [check_new_clients]
  apply List.filter_eq_nil_iff.mpr
  intro c hc
  have hany : (l.any fun o => o.id == c.id) = true :=
    List.any_eq_true.mpr ⟨c, hc, by simp⟩
  simp [hany]

theorem check_new_clients_append (old : List Client) (a : Client)
    (h : a.id ∉ old.map Client.id) :
    check_new_clients old (old ++ [a]) = [a] := by
  rw [check_new_clients, List.filter_append]
  have h1 : old.filter (fun c => !(old.any fun o => o.id == c.id)) = [] := by
    apply List.filter_eq_nil_iff.mpr
    intro c hc
    have hany : (old.any fun o => o.id == c.id) = true :=
      List.any_eq_true.mpr ⟨c, hc, by simp⟩
    simp [hany]
  have h2 : [a].filter (fun c => !(old.any fun o => o.id == c.id)) = [a] := by
    have hany : (old.any fun o => o.id == a.id) = false := by
      rw [List.any_eq_false]
      intro o ho hcontra
      rw [beq_iff_eq] at hcontra
      exact h (hcontra ▸ List.mem_map_of_mem Client.id ho)
    simp [List.filter, hany]
  rw [h1, h2, List.nil_append]

/-! ## Loop trace -/

theorem monitorTrace_length (admins : List Nat) (env : RenderEnv)
    (seq : Nat → IterReads) (st : MonState) (n : Nat) :
    (monitorTrace admins env seq st n).length = n := by
  induction n generalizing seq st with
  | zero => rfl
  | succ m ih =>
    rw [monitorTrace]
    simp only [List.length_cons]
    rw [ih]

/-! ## Claim theorems -/

/-- Claim C1: for every `(ownerId, email)` key present in the new config
snapshot, the differ emits a `ConfigChanged` event exactly when that key
is absent from the old snapshot or its rendered config string differs
from the old one (first conjunct: the reported entries for each owner
are exactly the current entries passing the emission condition), and a
key present only in the old snapshot produces no event at all (second
conjunct: an owner with no current entries is never reported). -/
theorem claim1_config_diff_exact (old cur : Snapshot)
    (hk : (snapKeys cur).Nodup) :
    (∀ tg, snapGet (diffConfigs old cur) tg =
        (snapGet cur tg).filter (entryChanged (snapGet old tg))) ∧
    (∀ tg, snapGet cur tg = [] → snapGet (diffConfigs old cur) tg = []) := by
  refine ⟨fun tg => snapGet_diffConfigs old cur hk tg, fun tg hempty => ?_⟩
  rw [snapGet_diffConfigs old cur hk tg, hempty]
  rfl

/-- Witness for C1 at a concrete snapshot pair: owner 1's entry changed
(reported), owner 2 exists only in the old snapshot (not reported). -/
theorem claim1_witness :
    (snapKeys wCur).Nodup ∧
    snapGet (diffConfigs wOld wCur) 1 =
      (snapGet wCur 1).filter (entryChanged (snapGet wOld 1)) ∧
    (snapGet wCur 2 = [] → snapGet (diffConfigs wOld wCur) 2 = []) :=
  ⟨by decide, (claim1_config_diff_exact wOld wCur (by decide)).1 1,
    fun h => (claim1_config_diff_exact wOld wCur (by decide)).2 2 h⟩

/-- Claim C7: diffing a config snapshot against itself produces no
change events; the snapshot carries the data model's documented
per-owner email uniqueness (and dict-key uniqueness), expressed by
`snapWF`. -/
theorem claim7_diff_idempotent (X : Snapshot) (hwf : snapWF X) :
    diffConfigs X X = [] :=
  diffConfigs_self X hwf

/-- Witness for C7 at a concrete two-owner snapshot. -/
theorem claim7_witness : snapWF wOld ∧ diffConfigs wOld wOld = [] :=
  ⟨by decide, claim7_diff_idempotent wOld (by decide)⟩

/-- Claim C10: a client whose `tgId` is missing or `0` contributes no
entry to the per-owner config snapshot — the built snapshot with that
client is the one without it — and therefore the differ output of any
poll is unchanged by such a client, so no configuration-change
notification can ever concern it. -/
theorem claim10_unowned_invisible (meta : InboundMeta) (c : Client)
    (cs1 cs2 : List Client) (h : c.tgId = none ∨ c.tgId = some 0) :
    get_all_user_configs meta (cs1 ++ c :: cs2) =
      get_all_user_configs meta (cs1 ++ cs2) ∧
    ∀ old, diffConfigs old (get_all_user_configs meta (cs1 ++ c :: cs2)) =
      diffConfigs old (get_all_user_configs meta (cs1 ++ cs2)) := by
  have htr : truthyTg c = none := by
    rcases h with h | h <;> simp [truthyTg, h]
  have hbuild : get_all_user_configs meta (cs1 ++ c :: cs2) =
      get_all_user_configs meta (cs1 ++ cs2) := by
    rw [get_all_user_configs_eq, get_all_user_configs_eq, List.foldl_append,
      List.foldl_append, List.foldl_cons]
    have hskip : buildStep meta (cs1.foldl (buildStep meta) []) c =
        cs1.foldl (buildStep meta) [] := by
      simp [buildStep, htr]
    rw [hskip]
  exact ⟨hbuild, fun old => by rw [hbuild]⟩

/-- Witness for C10: a `tgId`-less client inserted between two owned
clients changes neither the built snapshot nor a diff against it. -/
theorem claim10_witness :
    (wClientU.tgId = none ∨ wClientU.tgId = some 0) ∧
    get_all_user_configs wMeta ([wClientA] ++ wClientU :: [wClientB]) =
      get_all_user_configs wMeta ([wClientA] ++ [wClientB]) ∧
    diffConfigs wOld (get_all_user_configs wMeta ([wClientA] ++ wClientU :: [wClientB])) =
      diffConfigs wOld (get_all_user_configs wMeta ([wClientA] ++ [wClientB])) :=
  ⟨by decide,
    (claim10_unowned_invisible wMeta wClientU [wClientA] [wClientB] (by decide)).1,
    (claim10_unowned_invisible wMeta wClientU [wClientA] [wClientB] (by decide)).2 wOld⟩

theorem filter_entryChanged_self (es : List CfgEntry)
    (hn : (es.map CfgEntry.email).Nodup) :
    es.filter (entryChanged es) = [] :=
  List.filter_eq_nil_iff.mpr fun e he => by
    simp [entryChanged_self es e hn he]

/-- Claim C6: an error raised while building snapshots or computing
diffs (here: the client-list store read inside `check_new_clients`
raising, per the spec's `TransientStoreError`) leaves both retained
baselines exactly as they were, is logged, makes the loop sleep the
longer backoff interval 60 instead of the nominal 30, and the loop
continues: a trace always contains one entry per tick, whatever errors
occur. -/
theorem claim6_error_backoff (admins : List Nat) (env : RenderEnv) (r : IterReads)
    (st : MonState) (e : String) (h : r.clientsRead = Except.error e) :
    (monitorIteration admins env r st).state = st ∧
    (monitorIteration admins env r st).sleep = 60 ∧
    (monitorIteration admins env r st).errorLogged = some e ∧
    ∀ seq st2 n, (monitorTrace admins env seq st2 n).length = n := by
  obtain ⟨r1, r2, r3, r4⟩ := r
  simp only at h
  subst h
  exact ⟨rfl, rfl, rfl, fun seq st2 n => monitorTrace_length admins env seq st2 n⟩

/-- Witness for C6 at concrete reads whose client read fails. -/
theorem claim6_witness :
    cR2.clientsRead = Except.error "store busy" ∧
    (monitorIteration [] cEnv cR2 cSt0).state = cSt0 ∧
    (monitorIteration [] cEnv cR2 cSt0).sleep = 60 ∧
    (monitorIteration [] cEnv cR2 cSt0).errorLogged = some "store busy" ∧
    (monitorTrace [] cEnv (fun _ => cR2) cSt0 3).length = 3 := by
  have h := claim6_error_backoff [] cEnv cR2 cSt0 "store busy" rfl
  exact ⟨rfl, h.1, h.2.1, h.2.2.1, h.2.2.2 (fun _ => cR2) cSt0 3⟩

/-- Counterexample to claim C2 as stated: at these concrete inputs the
iteration's diff is non-empty, yet the retained baseline afterwards is
not the fresh snapshot the diff was computed against — the loop
replaces `last_configs` with a second, later store read
(src/bot.py line 951), which here differs from the read diffed at
line 898. -/
theorem claim2_counterexample :
    check_config_changes cSt0.last_configs cR0.cfgRead ≠ [] ∧
    (monitorIteration [] cEnv cR0 cSt0).state.last_configs ≠
      get_all_user_configsE cR0.cfgRead := by
  constructor
  · decide
  · decide

/-- Claim C2 as amended: the baseline is replaced by a second fresh
store read; when the store is unchanged between the iteration's reads,
that read equals the snapshot B2 the diff was computed against, the
baseline advances to B2 exactly on a non-empty diff (and is left
unchanged on an empty one), and re-running the iteration against the
unchanged store dispatches nothing — the same delta never fires in two
successive iterations. -/
theorem claim2_baseline_advance (admins : List Nat) (env : RenderEnv)
    (r : IterReads) (st : MonState) (s : Store) (cs : List Client)
    (h1 : r.cfgRead = Except.ok s) (h2 : r.cfgReread = Except.ok s)
    (h3 : r.clientsRead = Except.ok cs) (h4 : r.clientsReread = Except.ok cs)
    (hw : (s.clients.map Client.email).Nodup) :
    (check_config_changes st.last_configs r.cfgRead ≠ [] →
      (monitorIteration admins env r st).state.last_configs =
        get_all_user_configs s.meta s.clients) ∧
    (check_config_changes st.last_configs r.cfgRead = [] →
      (monitorIteration admins env r st).state.last_configs = st.last_configs) ∧
    (monitorIteration admins env r ((monitorIteration admins env r st).state)).sends
      = [] := by
  obtain ⟨r1, r2, r3, r4⟩ := r
  simp only at h1 h2 h3 h4
  subst h1; subst h2; subst h3; subst h4
  have hcc : ∀ m : Snapshot, check_config_changes m (Except.ok s) =
      diffConfigs m (get_all_user_configs s.meta s.clients) := fun m => rfl
  cases hch : diffConfigs st.last_configs (get_all_user_configs s.meta s.clients) with
  | nil =>
    cases hnc : check_new_clients st.last_clients cs with
    | nil =>
      have hst : (monitorIteration admins env ⟨Except.ok s, Except.ok cs,
          Except.ok s, Except.ok cs⟩ st).state = st := by
        simp [monitorIteration, hcc, hch, hnc]
      refine ⟨fun hne => absurd hch hne, fun _ => by rw [hst], ?_⟩
      rw [hst]
      simp [monitorIteration, hcc, hch, hnc, configSendsOf, newClientSends]
    | cons c l =>
      have hst : (monitorIteration admins env ⟨Except.ok s, Except.ok cs,
          Except.ok s, Except.ok cs⟩ st).state =
          { last_configs := st.last_configs, last_clients := cs } := by
        simp [monitorIteration, hcc, hch, hnc]
      refine ⟨fun hne => absurd hch hne, fun _ => by rw [hst], ?_⟩
      rw [hst]
      have hnc2 : check_new_clients cs cs = [] := check_new_clients_self cs
      simp [monitorIteration, hcc, hch, hnc2, configSendsOf, newClientSends]
  | cons p l =>
    have hself : diffConfigs (get_all_user_configs s.meta s.clients)
        (get_all_user_configs s.meta s.clients) = [] :=
      diffConfigs_self _ (snapWF_build s.meta s.clients hw)
    cases hnc : check_new_clients st.last_clients cs with
    | nil =>
      have hst : (monitorIteration admins env ⟨Except.ok s, Except.ok cs,
          Except.ok s, Except.ok cs⟩ st).state =
          { last_configs := get_all_user_configs s.meta s.clients
            last_clients := st.last_clients } := by
        simp [monitorIteration, hcc, hch, hnc, get_all_user_configsE]
      refine ⟨fun _ => by rw [hst], fun heq => absurd heq (by simp [hcc, hch]), ?_⟩
      rw [hst]
      simp [monitorIteration, hcc, hself, hnc, configSendsOf, newClientSends]
    | cons c l2 =>
      have hst : (monitorIteration admins env ⟨Except.ok s, Except.ok cs,
          Except.ok s, Except.ok cs⟩ st).state =
          { last_configs := get_all_user_configs s.meta s.clients
            last_clients := cs } := by
        simp [monitorIteration, hcc, hch, hnc, get_all_user_configsE]
      refine ⟨fun _ => by rw [hst], fun heq => absurd heq (by simp [hcc, hch]), ?_⟩
      rw [hst]
      have hnc2 : check_new_clients cs cs = [] := check_new_clients_self cs
      simp [monitorIteration, hcc, hself, hnc2, configSendsOf, newClientSends]

/-- Witness for the amended C2 at concrete stable-store reads: the
first iteration's diff is non-empty, the baseline advances to the
diffed snapshot, and the second iteration against the same store
dispatches nothing. -/
theorem claim2_witness :
    cR1.cfgRead = Except.ok { meta := wMeta, clients := [wClientA] } ∧
    cR1.cfgReread = Except.ok { meta := wMeta, clients := [wClientA] } ∧
    cR1.clientsRead = Except.ok [wClientA] ∧
    cR1.clientsReread = Except.ok [wClientA] ∧
    ([wClientA].map Client.email).Nodup ∧
    check_config_changes cSt0.last_configs cR1.cfgRead ≠ [] ∧
    (monitorIteration [] cEnv cR1 cSt0).state.last_configs =
      get_all_user_configs wMeta [wClientA] ∧
    (monitorIteration [] cEnv cR1 ((monitorIteration [] cEnv cR1 cSt0).state)).sends
      = [] := by
  have h := claim2_baseline_advance [] cEnv cR1 cSt0
    { meta := wMeta, clients := [wClientA] } [wClientA] rfl rfl rfl rfl (by decide)
  exact ⟨rfl, rfl, rfl, rfl, by decide, by decide, h.1 (by decide), h.2.2⟩

/-- Claim C3: when the client store gains one account `a` (absent id)
on top of baseline `old`, the iteration's account diff is exactly
`[a]`, a notification about `a` is sent to every configured
administrator, and the config diff of the same transition reports
nothing for any owner unrelated to `a`. -/
theorem claim3_new_account (admins : List Nat) (env : RenderEnv) (r : IterReads)
    (st : MonState) (meta : InboundMeta) (old : List Client) (a : Client)
    (h1 : r.clientsRead = Except.ok (old ++ [a]))
    (h2 : st.last_clients = old)
    (h3 : a.id ∉ old.map Client.id)
    (h4 : r.cfgRead = Except.ok { meta := meta, clients := old ++ [a] })
    (h5 : st.last_configs = get_all_user_configs meta old)
    (h6 : (old.map Client.email).Nodup) :
    check_new_clients st.last_clients (old ++ [a]) = [a] ∧
    (∀ ad ∈ admins,
      (ad, format_new_client_message env.remark env.gbR env.dateR a) ∈
        (monitorIteration admins env r st).sends) ∧
    (∀ o, truthyTg a ≠ some o →
      snapGet (check_config_changes st.last_configs r.cfgRead) o = []) := by
  have hdiff : check_new_clients st.last_clients (old ++ [a]) = [a] := by
    rw [h2]
    exact check_new_clients_append old a h3
  refine ⟨hdiff, ?_, ?_⟩
  · intro ad had
    obtain ⟨r1, r2, r3, r4⟩ := r
    simp only at h1 h4
    subst h1; subst h4
    have hmem : (ad, format_new_client_message env.remark env.gbR env.dateR a) ∈
        newClientSends admins env.remark env.gbR env.dateR [a] := by
      simp [newClientSends]
      exact had
    cases r4 with
    | error e4 =>
      simp only [monitorIteration, hdiff]
      exact List.mem_append_right _ hmem
    | ok cs4 =>
      simp only [monitorIteration, hdiff]
      exact List.mem_append_right _ hmem
  · intro o ho
    rw [h4, h5]
    have hcc : check_config_changes (get_all_user_configs meta old)
        (Except.ok { meta := meta, clients := old ++ [a] }) =
        diffConfigs (get_all_user_configs meta old)
          (get_all_user_configs meta (old ++ [a])) := rfl
    rw [hcc, snapGet_diffConfigs _ _ (build_keys_nodup meta (old ++ [a])) o]
    have hsel : buildSel meta o a = none := by
      rw [buildSel, if_neg ho]
    have hsame : snapGet (get_all_user_configs meta (old ++ [a])) o =
        snapGet (get_all_user_configs meta old) o := by
      rw [snapGet_build, snapGet_build, List.filterMap_append]
      simp [hsel]
    rw [hsame]
    exact filter_entryChanged_self _ (build_emails_nodup meta old h6 o)

/-- Witness for C3: client B is added next to client A; the diff is
exactly `[B]`, administrator 5 receives the notification, and owner 1
(client A's owner) gets no config-change report. -/
theorem claim3_witness :
    cR3.clientsRead = Except.ok ([wClientA] ++ [wClientB]) ∧
    cSt3.last_clients = [wClientA] ∧
    wClientB.id ∉ [wClientA].map Client.id ∧
    cR3.cfgRead = Except.ok { meta := wMeta, clients := [wClientA] ++ [wClientB] } ∧
    cSt3.last_configs = get_all_user_configs wMeta [wClientA] ∧
    ([wClientA].map Client.email).Nodup ∧
    check_new_clients cSt3.last_clients ([wClientA] ++ [wClientB]) = [wClientB] ∧
    (5, format_new_client_message cEnv.remark cEnv.gbR cEnv.dateR wClientB) ∈
      (monitorIteration [5] cEnv cR3 cSt3).sends ∧
    snapGet (check_config_changes cSt3.last_configs cR3.cfgRead) 1 = [] := by
  have h := claim3_new_account [5] cEnv cR3 cSt3 wMeta [wClientA] wClientB
    rfl rfl (by decide) rfl rfl (by decide)
  exact ⟨rfl, rfl, by decide, rfl, rfl, by decide,
    h.1, h.2.1 5 (by decide), h.2.2 1 (by decide)⟩

/-! ## Broadcast fan-out -/

theorem broadcastFanout_eq (ids : List Nat) (ok : Nat → Bool) :
    broadcastFanout ids ok = ids.foldl (fanoutStep ok) {} := rfl

theorem fanoutFold_spec (ok : Nat → Bool) (ids : List Nat) (acc : FanoutAcc) :
    (ids.foldl (fanoutStep ok) acc).attempted = acc.attempted ++ ids ∧
    (ids.foldl (fanoutStep ok) acc).success_count +
      (ids.foldl (fanoutStep ok) acc).failed_count =
      acc.success_count + acc.failed_count + ids.length := by
  induction ids generalizing acc with
  | nil => simp
  | cons tg rest ih =>
    rw [List.foldl_cons]
    rcases ih (fanoutStep ok acc tg) with ⟨ha, hc⟩
    by_cases hok : ok tg <;>
      exact ⟨by rw [ha]; simp [fanoutStep, hok],
        by rw [hc]; simp [fanoutStep, hok]; omega⟩

/-- Claim C4: with a stored non-empty message and non-empty recipient
list, confirming the broadcast attempts a send to every stored
recipient in order regardless of per-recipient outcomes (no
short-circuit), and the counts reported back to the initiator satisfy
`succeeded + failed = total recipients`. -/
theorem claim4_broadcast_delivery (ok : Nat → Bool) (ud : UserData) (t : String)
    (ids : List Nat) (h1 : ud.mail_text = some t) (h2 : t ≠ "")
    (h3 : ud.mail_telegram_ids = some ids) (h4 : ids ≠ []) :
    (mail_handle_confirm_button "mail_confirm" ok ud).fanout = broadcastFanout ids ok ∧
    (broadcastFanout ids ok).attempted = ids ∧
    (broadcastFanout ids ok).success_count + (broadcastFanout ids ok).failed_count
      = ids.length ∧
    (mail_handle_confirm_button "mail_confirm" ok ud).replies =
      [mailStatsFinal (broadcastFanout ids ok).success_count
        (broadcastFanout ids ok).failed_count ids.length] := by
  have hf1 : pyFalsyStr ud.mail_text = false := by
    rw [h1]
    simpa [pyFalsyStr] using h2
  have hf2 : pyFalsyList ud.mail_telegram_ids = false := by
    rw [h3]
    simpa [pyFalsyList] using h4
  have hred : mail_handle_confirm_button "mail_confirm" ok ud =
      { state := END_STATE
        fanout := broadcastFanout ids ok
        replies := [mailStatsFinal (broadcastFanout ids ok).success_count
          (broadcastFanout ids ok).failed_count ids.length]
        ud := clearMailData ud } := by
    rw [mail_handle_confirm_button, if_pos rfl, if_neg (by simp [hf1, hf2])]
    simp [h3]
  have hspec := fanoutFold_spec ok ids {}
  rw [broadcastFanout_eq]
  exact ⟨by rw [hred, broadcastFanout_eq], by simpa using hspec.1,
    by simpa using hspec.2, by rw [hred, broadcastFanout_eq]⟩

/-- Witness for C4 at a concrete session where delivery to recipient 2
fails: all three recipients are still attempted and 2 + 1 = 3. -/
theorem claim4_witness :
    wUd4.mail_text = some "Scheduled maintenance at 02:00" ∧
    ("Scheduled maintenance at 02:00" : String) ≠ "" ∧
    wUd4.mail_telegram_ids = some [1, 2, 3] ∧
    ([1, 2, 3] : List Nat) ≠ [] ∧
    (mail_handle_confirm_button "mail_confirm" (fun n => n != 2) wUd4).fanout =
      broadcastFanout [1, 2, 3] (fun n => n != 2) ∧
    (broadcastFanout [1, 2, 3] (fun n => n != 2)).attempted = [1, 2, 3] ∧
    (broadcastFanout [1, 2, 3] (fun n => n != 2)).success_count +
      (broadcastFanout [1, 2, 3] (fun n => n != 2)).failed_count = 3 ∧
    (mail_handle_confirm_button "mail_confirm" (fun n => n != 2) wUd4).replies =
      [mailStatsFinal (broadcastFanout [1, 2, 3] (fun n => n != 2)).success_count
        (broadcastFanout [1, 2, 3] (fun n => n != 2)).failed_count 3] := by
  have h := claim4_broadcast_delivery (fun n => n != 2) wUd4
    "Scheduled maintenance at 02:00" [1, 2, 3] rfl (by decide) rfl (by decide)
  exact ⟨rfl, by decide, rfl, by decide, h.1, h.2.1, h.2.2.1, h.2.2.2⟩

/-- Claim C8: a user without the administrator capability who invokes
the broadcast entry point receives exactly the rejection reply, no
broadcast prompt is issued, the session data is left untouched (nothing
stored), and the conversation state is `Idle` (`END_STATE`). -/
theorem claim8_mail_authorization (admins : List Nat) (uid promptMsgId chatId : Nat)
    (ud : UserData) (h : is_admin admins uid = false) :
    (mail_start admins uid promptMsgId chatId ud).state = END_STATE ∧
    (mail_start admins uid promptMsgId chatId ud).ud = ud ∧
    (mail_start admins uid promptMsgId chatId ud).replies = [mailRejectText] ∧
    mailPromptText ∉ (mail_start admins uid promptMsgId chatId ud).replies := by
  have hred : mail_start admins uid promptMsgId chatId ud =
      { state := END_STATE, replies := [mailRejectText], ud := ud } := by
    rw [mail_start, if_neg (by simp [h])]
  refine ⟨by rw [hred], by rw [hred], by rw [hred], ?_⟩
  rw [hred]
  show mailPromptText ∉ [mailRejectText]
  decide

/-- Witness for C8: user 7 is not among the administrators `[5]`. -/
theorem claim8_witness :
    is_admin [5] 7 = false ∧
    (mail_start [5] 7 42 43 wUd5).state = END_STATE ∧
    (mail_start [5] 7 42 43 wUd5).ud = wUd5 ∧
    (mail_start [5] 7 42 43 wUd5).replies = [mailRejectText] ∧
    mailPromptText ∉ (mail_start [5] 7 42 43 wUd5).replies := by
  have h := claim8_mail_authorization [5] 7 42 43 wUd5 (by decide)
  exact ⟨by decide, h.1, h.2.1, h.2.2.1, h.2.2.2⟩

/-- Claim C9: in every text-awaiting step of both flows, an inbound
text that is empty or whitespace-only leaves the handler's state
unchanged, stores nothing, keeps every previously collected field, and
re-prompts (for the broadcast message step the caller is an
administrator, which holds for anyone the entry point admitted into
that state). -/
theorem claim9_blank_reprompt (admins : List Nat) (uid : Nat) (text : String)
    (allIds : List Nat) (cmId newMsgId : Nat)
    (firstName lastName username : Option String) (ts : String) (ud : UserData)
    (hblank : pyStrip text = "") (hadm : is_admin admins uid = true) :
    mail_receive_message admins uid text allIds cmId ud =
      { state := MAIL_WAITING_MESSAGE, replies := [mailEmptyText], ud := ud } ∧
    report_provider text newMsgId ud =
      { state := REPORT_PROVIDER, replies := [pleaseEnterText], ud := ud } ∧
    report_device text newMsgId ud =
      { state := REPORT_DEVICE, replies := [pleaseEnterText], ud := ud } ∧
    (report_comments admins uid firstName lastName username ts text ud).state =
      REPORT_COMMENTS ∧
    (report_comments admins uid firstName lastName username ts text ud).ud = ud ∧
    (report_comments admins uid firstName lastName username ts text ud).adminSends
      = [] := by
  have hmail : mail_receive_message admins uid text allIds cmId ud =
      { state := MAIL_WAITING_MESSAGE, replies := [mailEmptyText], ud := ud } := by
    rw [mail_receive_message, if_neg (by simp [hadm]), if_pos hblank]
  have hrep : report_comments admins uid firstName lastName username ts text ud =
      { state := REPORT_COMMENTS, replies := [pleaseEnterText],
        adminSends := [], ud := ud } := by
    rw [report_comments, if_pos hblank]
  exact ⟨hmail, by rw [report_provider, if_pos hblank],
    by rw [report_device, if_pos hblank],
    by rw [hrep], by rw [hrep], by rw [hrep]⟩

/-- Witness for C9: whitespace-only input in each step for
administrator 5, with a partially filled report session that is kept
intact. -/
theorem claim9_witness :
    pyStrip "  " = "" ∧
    is_admin [5] 5 = true ∧
    mail_receive_message [5] 5 "  " [1, 2] 42 wUd5 =
      { state := MAIL_WAITING_MESSAGE, replies := [mailEmptyText], ud := wUd5 } ∧
    report_provider "  " 42 wUd5 =
      { state := REPORT_PROVIDER, replies := [pleaseEnterText], ud := wUd5 } ∧
    report_device "  " 42 wUd5 =
      { state := REPORT_DEVICE, replies := [pleaseEnterText], ud := wUd5 } ∧
    (report_comments [5] 5 (some "Luke") none none "2026-01-01" "  " wUd5).state =
      REPORT_COMMENTS ∧
    (report_comments [5] 5 (some "Luke") none none "2026-01-01" "  " wUd5).ud = wUd5 ∧
    (report_comments [5] 5 (some "Luke") none none "2026-01-01" "  " wUd5).adminSends
      = [] := by
  have h := claim9_blank_reprompt [5] 5 "  " [1, 2] 42 42 (some "Luke") none none
    "2026-01-01" wUd5 (by decide) (by decide)
  exact ⟨by decide, by decide, h.1, h.2.1, h.2.2.1, h.2.2.2.1, h.2.2.2.2.1,
    h.2.2.2.2.2⟩

theorem count_map_pair (msg : String) (ad : Nat) (l : List Nat)
    (hN : l.Nodup) (had : ad ∈ l) :
    (l.map fun a => (a, msg)).count (ad, msg) = 1 := by
  induction l with
  | nil => cases had
  | cons b rest ih =>
    rw [List.nodup_cons] at hN
    rw [List.map_cons, List.count_cons]
    rcases List.mem_cons.mp had with h | h
    · subst h
      have hz : (rest.map fun a => (a, msg)).count (ad, msg) = 0 := by
        apply List.count_eq_zero.mpr
        intro hmem
        rcases List.mem_map.mp hmem with ⟨x, hx, hxe⟩
        have hxb : x = ad := congrArg Prod.fst hxe
        exact hN.1 (hxb ▸ hx)
      simp [hz]
    · have hne : (b, msg) ≠ (ad, msg) := by
        intro he
        have hba : b = ad := congrArg Prod.fst he
        subst hba
        exact hN.1 h
      have hbeq : ((b, msg) == (ad, msg)) = false := beq_eq_false_iff_ne.mpr hne
      rw [ih hN.2 h, hbeq]
      simp

/-- Claim C5: on non-empty input at the comments step with an active
session, every configured administrator is sent exactly one structured
message (count 1 for each administrator, given the configured list has
no duplicates), the message contains the stored provider, device,
comments and the submitter's identity link, the session is cleared and
the conversation returns to `Idle`; invoking the terminal step again on
the cleared session sends no administrator messages and stores
nothing. -/
theorem claim5_report_terminal (admins : List Nat) (uid : Nat)
    (firstName lastName username : Option String) (ts text : String)
    (ud : UserData) (rd : ReportData) (p d : String) (ad : Nat)
    (h1 : pyStrip text ≠ "") (h2 : ud.report_data = some rd)
    (h3 : rd.provider = some p) (h4 : rd.device = some d)
    (h5 : admins.Nodup) (h6 : ad ∈ admins) :
    (report_comments admins uid firstName lastName username ts text ud).adminSends.count
        (ad, reportAdminMessage
          (mkUserLink (mkUserName firstName lastName username uid) uid)
          ts p d (pyStrip text)) = 1 ∧
    (∃ l r, (reportAdminMessage
        (mkUserLink (mkUserName firstName lastName username uid) uid)
        ts p d (pyStrip text)).data = l ++ p.data ++ r) ∧
    (∃ l r, (reportAdminMessage
        (mkUserLink (mkUserName firstName lastName username uid) uid)
        ts p d (pyStrip text)).data = l ++ d.data ++ r) ∧
    (∃ l r, (reportAdminMessage
        (mkUserLink (mkUserName firstName lastName username uid) uid)
        ts p d (pyStrip text)).data = l ++ (pyStrip text).data ++ r) ∧
    (∃ l r, (reportAdminMessage
        (mkUserLink (mkUserName firstName lastName username uid) uid)
        ts p d (pyStrip text)).data =
          l ++ (mkUserLink (mkUserName firstName lastName username uid) uid).data ++ r) ∧
    (report_comments admins uid firstName lastName username ts text ud).state =
      END_STATE ∧
    (report_comments admins uid firstName lastName username ts text ud).ud.report_data
      = none ∧
    (report_comments admins uid firstName lastName username ts text
        (report_comments admins uid firstName lastName username ts text ud).ud).adminSends
      = [] ∧
    (report_comments admins uid firstName lastName username ts text
        (report_comments admins uid firstName lastName username ts text ud).ud).ud =
      (report_comments admins uid firstName lastName username ts text ud).ud ∧
    (report_comments admins uid firstName lastName username ts text
        (report_comments admins uid firstName lastName username ts text ud).ud).state =
      END_STATE := by
  have hred : report_comments admins uid firstName lastName username ts text ud =
      { state := END_STATE
        replies := [reportAckText]
        adminSends := admins.map fun a => (a, reportAdminMessage
          (mkUserLink (mkUserName firstName lastName username uid) uid)
          ts p d (pyStrip text))
        ud := { ud with report_data := none } } := by
    rw [report_comments, if_neg h1, h2]
    simp [h3, h4, pyOptStr]
  have hred2 : report_comments admins uid firstName lastName username ts text
      { ud with report_data := none } =
      { state := END_STATE, replies := [reportLostText], adminSends := [],
        ud := { ud with report_data := none } } := by
    rw [report_comments, if_neg h1]
  have hsends : (report_comments admins uid firstName lastName username ts text ud).adminSends
      = admins.map (fun a => (a, reportAdminMessage
          (mkUserLink (mkUserName firstName lastName username uid) uid)
          ts p d (pyStrip text))) := by
    rw [hred]
  have hudp : (report_comments admins uid firstName lastName username ts text ud).ud
      = { ud with report_data := none } := by
    rw [hred]
  refine ⟨?_, ?_, ?_, ?_, ?_, by rw [hred], by rw [hred], ?_, ?_, ?_⟩
  · rw [hsends]
    exact count_map_pair _ ad admins h5 h6
  · refine ⟨("📋 **Новый отчет о проблеме**\n\n👤 Отправитель: " ++
        mkUserLink (mkUserName firstName lastName username uid) uid ++
        "\n🕐 Время: " ++ ts ++ "\n\n**1️⃣ Провайдер:**\n").data,
      ("\n\n**2️⃣ Устройство:**\n" ++ d ++ "\n\n**3️⃣ Комментарии:**\n" ++
        pyStrip text).data, ?_⟩
    simp [reportAdminMessage, String.data_append, List.append_assoc]
  · refine ⟨("📋 **Новый отчет о проблеме**\n\n👤 Отправитель: " ++
        mkUserLink (mkUserName firstName lastName username uid) uid ++
        "\n🕐 Время: " ++ ts ++ "\n\n**1️⃣ Провайдер:**\n" ++ p ++
        "\n\n**2️⃣ Устройство:**\n").data,
      ("\n\n**3️⃣ Комментарии:**\n" ++ pyStrip text).data, ?_⟩
    simp [reportAdminMessage, String.data_append, List.append_assoc]
  · refine ⟨("📋 **Новый отчет о проблеме**\n\n👤 Отправитель: " ++
        mkUserLink (mkUserName firstName lastName username uid) uid ++
        "\n🕐 Время: " ++ ts ++ "\n\n**1️⃣ Провайдер:**\n" ++ p ++
        "\n\n**2️⃣ Устройство:**\n" ++ d ++ "\n\n**3️⃣ Комментарии:**\n").data,
      ([] : List Char), ?_⟩
    simp [reportAdminMessage, String.data_append, List.append_assoc]
  · refine ⟨("📋 **Новый отчет о проблеме**\n\n👤 Отправитель: " : String).data,
      ("\n🕐 Время: " ++ ts ++ "\n\n**1️⃣ Провайдер:**\n" ++ p ++
        "\n\n**2️⃣ Устройство:**\n" ++ d ++ "\n\n**3️⃣ Комментарии:**\n" ++
        pyStrip text).data, ?_⟩
    simp [reportAdminMessage, String.data_append, List.append_assoc]
  · rw [hudp, hred2]
  · rw [hudp, hred2]
  · rw [hudp, hred2]

/-- Witness for C5 at a concrete completed session: administrator 9
receives exactly one report containing all three fields and the
submitter link, the session is cleared, and re-running the terminal
step sends nothing and stores nothing. -/
theorem claim5_witness :
    pyStrip "Cannot connect since 10:00" ≠ "" ∧
    wUd5.report_data = some wRd5 ∧
    wRd5.provider = some "ProviderX" ∧
    wRd5.device = some "phone" ∧
    ([9] : List Nat).Nodup ∧
    9 ∈ ([9] : List Nat) ∧
    (report_comments [9] 7 (some "Luke") none none "2026-01-01 00:00:00"
        "Cannot connect since 10:00" wUd5).adminSends.count
      (9, reportAdminMessage (mkUserLink (mkUserName (some "Luke") none none 7) 7)
        "2026-01-01 00:00:00" "ProviderX" "phone"
        (pyStrip "Cannot connect since 10:00")) = 1 ∧
    (∃ l r, (reportAdminMessage (mkUserLink (mkUserName (some "Luke") none none 7) 7)
        "2026-01-01 00:00:00" "ProviderX" "phone"
        (pyStrip "Cannot connect since 10:00")).data =
      l ++ ("ProviderX" : String).data ++ r) ∧
    (∃ l r, (reportAdminMessage (mkUserLink (mkUserName (some "Luke") none none 7) 7)
        "2026-01-01 00:00:00" "ProviderX" "phone"
        (pyStrip "Cannot connect since 10:00")).data =
      l ++ ("phone" : String).data ++ r) ∧
    (∃ l r, (reportAdminMessage (mkUserLink (mkUserName (some "Luke") none none 7) 7)
        "2026-01-01 00:00:00" "ProviderX" "phone"
        (pyStrip "Cannot connect since 10:00")).data =
      l ++ (pyStrip "Cannot connect since 10:00").data ++ r) ∧
    (∃ l r, (reportAdminMessage (mkUserLink (mkUserName (some "Luke") none none 7) 7)
        "2026-01-01 00:00:00" "ProviderX" "phone"
        (pyStrip "Cannot connect since 10:00")).data =
      l ++ (mkUserLink (mkUserName (some "Luke") none none 7) 7).data ++ r) ∧
    (report_comments [9] 7 (some "Luke") none none "2026-01-01 00:00:00"
        "Cannot connect since 10:00" wUd5).state = END_STATE ∧
    (report_comments [9] 7 (some "Luke") none none "2026-01-01 00:00:00"
        "Cannot connect since 10:00" wUd5).ud.report_data = none ∧
    (report_comments [9] 7 (some "Luke") none none "2026-01-01 00:00:00"
        "Cannot connect since 10:00"
        (report_comments [9] 7 (some "Luke") none none "2026-01-01 00:00:00"
          "Cannot connect since 10:00" wUd5).ud).adminSends = [] ∧
    (report_comments [9] 7 (some "Luke") none none "2026-01-01 00:00:00"
        "Cannot connect since 10:00"
        (report_comments [9] 7 (some "Luke") none none "2026-01-01 00:00:00"
          "Cannot connect since 10:00" wUd5).ud).ud =
      (report_comments [9] 7 (some "Luke") none none "2026-01-01 00:00:00"
        "Cannot connect since 10:00" wUd5).ud ∧
    (report_comments [9] 7 (some "Luke") none none "2026-01-01 00:00:00"
        "Cannot connect since 10:00"
        (report_comments [9] 7 (some "Luke") none none "2026-01-01 00:00:00"
          "Cannot connect since 10:00" wUd5).ud).state = END_STATE := by
  have h := claim5_report_terminal [9] 7 (some "Luke") none none
    "2026-01-01 00:00:00" "Cannot connect since 10:00" wUd5 wRd5 "ProviderX" "phone" 9
    (by decide) rfl rfl rfl (by decide) (by decide)
  exact ⟨by decide, rfl, rfl, rfl, by decide, by decide, h.1, h.2.1, h.2.2.1,
    h.2.2.2.1, h.2.2.2.2.1, h.2.2.2.2.2.1, h.2.2.2.2.2.2.1, h.2.2.2.2.2.2.2.1,
    h.2.2.2.2.2.2.2.2.1, h.2.2.2.2.2.2.2.2.2⟩
